import Mathlib

/-!
Verification development for the geonotebook RPC kernel
(`geonotebook/kernel.py`): a shallow embedding of the Remote proxy, the
Geonotebook session controller and the GeonotebookKernel transport
adapter, with theorems about protocol-method generation, arity
validation, response resolution, request dispatch, protocol caching,
bootstrap lifecycle, map-state serialization and annotation metadata
handling.

Python values flowing over the wire are modelled by `JValue`; Python
dicts by association lists; Python object attributes by structure
fields; exceptions by `Except`.  The `jsonrpc` codec module is not part
of the kernel source, so its envelope builders and classifiers are
modelled from the specification (each such definition says so in its
doc comment).
-/

namespace Geonb

/-- A JSON-serializable Python value as it appears in RPC messages. -/
inductive JValue where
  | null
  | bool (b : Bool)
  | num (n : Int)
  | str (s : String)
  | arr (xs : List JValue)

mutual

/-- Boolean equality on `JValue`. -/
def JValue.beq : JValue → JValue → Bool
  | .null, .null => true
  | .bool a, .bool b => a == b
  | .num a, .num b => a == b
  | .str a, .str b => a == b
  | .arr as, .arr bs => JValue.beqList as bs
  | _, _ => false

/-- Boolean equality on lists of `JValue`. -/
def JValue.beqList : List JValue → List JValue → Bool
  | [], [] => true
  | a :: as, b :: bs => JValue.beq a b && JValue.beqList as bs
  | _, _ => false

end

instance : BEq JValue := ⟨JValue.beq⟩

mutual

theorem JValue.eq_of_beq : ∀ {a b : JValue}, JValue.beq a b = true → a = b
  | .null, .null, _ => rfl
  | .bool a, .bool b, h => by
      simpa [JValue.beq] using h
  | .num a, .num b, h => by
      simpa [JValue.beq] using h
  | .str a, .str b, h => by
      simpa [JValue.beq] using h
  | .arr as, .arr bs, h => by
      have h' : JValue.beqList as bs = true := by simpa [JValue.beq] using h
      rw [JValue.eqList_of_beqList h']

theorem JValue.eqList_of_beqList :
    ∀ {as bs : List JValue}, JValue.beqList as bs = true → as = bs
  | [], [], _ => rfl
  | a :: as, b :: bs, h => by
      have h' := h
      simp only [JValue.beqList, Bool.and_eq_true] at h'
      rw [JValue.eq_of_beq h'.1, JValue.eqList_of_beqList h'.2]

end

mutual

theorem JValue.beq_refl : ∀ (a : JValue), JValue.beq a a = true
  | .null => rfl
  | .bool a => by simp [JValue.beq]
  | .num a => by simp [JValue.beq]
  | .str a => by simp [JValue.beq]
  | .arr as => by simpa [JValue.beq] using JValue.beqList_refl as

theorem JValue.beqList_refl : ∀ (as : List JValue), JValue.beqList as as = true
  | [] => rfl
  | a :: as => by
      simp only [JValue.beqList, Bool.and_eq_true]
      exact ⟨JValue.beq_refl a, JValue.beqList_refl as⟩

end

instance : DecidableEq JValue := fun a b =>
  decidable_of_iff (JValue.beq a b = true)
    ⟨JValue.eq_of_beq, fun h => h ▸ JValue.beq_refl a⟩

instance : LawfulBEq JValue where
  eq_of_beq := JValue.eq_of_beq
  rfl := JValue.beq_refl _

/-- Python dict with string keys, as an association list in insertion
order. -/
abbrev JDict := List (String × JValue)

/-- Python truthiness of a `JValue` (`None`, `False`, `0`, `""` and `[]`
are falsy). -/
def truthy : JValue → Bool
  | .null => false
  | .bool b => b
  | .num n => n != 0
  | .str s => s != ""
  | .arr xs => !xs.isEmpty

/-- Lookup in a Python dict built by a comprehension: a later binding
for the same key overwrites an earlier one, so the last occurrence
wins. -/
def pyLookup {α : Type} (kvs : List (String × α)) (k : String) : Option α :=
  (kvs.reverse.find? (fun kv => kv.1 == k)).map (·.2)

/-- One wire parameter entry `{'key': ..., 'value': ..., 'required': ...}`
as produced by `make_param` in `Remote._make_protocol_method`. -/
structure Param where
  key : String
  value : JValue
  required : Bool
deriving DecidableEq

/-- A parameter specification inside a protocol descriptor:
`{'key': p, 'default': d}` (`dflt` models the Python key `default`). -/
structure PParam where
  key : String
  dflt : JValue
deriving DecidableEq

/-- A protocol descriptor
`{'procedure': ..., 'required': [...], 'optional': [...]}`. -/
structure Protocol where
  procedure : String
  required : List PParam
  optional : List PParam
deriving DecidableEq

/-- Modelled from the spec: the `jsonrpc` module's `json_rpc_request`
is not under `src/`; per spec sections 4.1 and 6 it builds a
`RequestEnvelope` `{id, method, params}` with a freshly allocated,
channel-unique id.  Id allocation is modelled by the caller passing the
next value of a counter. -/
structure Request where
  id : Nat
  method : String
  params : List Param
deriving DecidableEq

/-- Modelled from the spec: `json_rpc_request` builds the request
envelope from a method name, an ordered parameter list, and the fresh
id. -/
def json_rpc_request (method : String) (params : List Param) (id : Nat) :
    Request :=
  { id := id, method := method, params := params }

/-- Modelled from the spec: the `jsonrpc` module's `json_rpc_result`
builds a `ResultEnvelope` `{id, result, error}`. -/
structure ResultMsg where
  id : Nat
  result : JValue
  error : JValue
deriving DecidableEq

/-- Modelled from the spec: `json_rpc_result result error id` builds a
result envelope. -/
def json_rpc_result (result : JValue) (error : JValue) (id : Nat) :
    ResultMsg :=
  { id := id, result := result, error := error }

/-- An inbound wire message with possibly-absent fields (`none` models a
missing dict key; `some .null` models an explicit JSON null). -/
structure WireMsg where
  id : Option Nat
  method : Option String
  params : Option (List Param)
  result : Option JValue
  error : Option JValue
deriving DecidableEq

/-- Modelled from the spec: `jsonrpc.is_request` classifies an envelope
as a request when it carries a non-null `method` field (spec section
4.1). -/
def is_request (msg : WireMsg) : Bool :=
  msg.method.isSome

/-- Modelled from the spec: `jsonrpc.is_response` classifies an envelope
as a response when it carries an `id` field plus at least one of
`result`/`error` (spec section 4.1). -/
def is_response (msg : WireMsg) : Bool :=
  msg.id.isSome && (msg.result.isSome || msg.error.isSome)

/-- The error kinds raised by `kernel.py` from the `jsonrpc` error
taxonomy, each carrying its message text. -/
inductive RPCError where
  | parseError (msg : String)
  | methodNotFound (msg : String)
  | invalidParams (msg : String)
  | serverError (msg : String)
deriving DecidableEq

/-- The state of one `promise.Promise`: pending, fulfilled with a value,
or rejected with the exception payload passed to `reject`. -/
inductive PromiseState where
  | pending
  | fulfilled (v : JValue)
  | rejected (e : JValue)
deriving DecidableEq

/-- Ordered trace of the proxy's observable side effects: registering a
promise in `_promises` and handing a message to the transport sink. -/
inductive RemoteEvent where
  | register (id : Nat)
  | send (id : Nat)
deriving DecidableEq

/-- The mutable state of a `Remote` object: the `_promises` correlation
table, the id counter backing the codec's fresh-id allocation, the
messages handed to `_send_msg` in order, the side-effect trace, and the
warning log. -/
structure RemoteState where
  promises : List (Nat × PromiseState)
  nextId : Nat
  sent : List Request
  events : List RemoteEvent
  log : List String
deriving DecidableEq

/-- Look up a promise by message id in the `_promises` table. -/
def promiseLookup (ps : List (Nat × PromiseState)) (id : Nat) :
    Option PromiseState :=
  (ps.find? (fun kv => kv.1 == id)).map (·.2)

/-- Settle the promise stored under `id`, in place: the table entry is
updated, never removed. -/
def promiseSettle (ps : List (Nat × PromiseState)) (id : Nat)
    (s : PromiseState) : List (Nat × PromiseState) :=
  ps.map (fun kv => if kv.1 == id then (kv.1, s) else kv)

namespace Remote

/-- `Remote.validate`: two assertions checking the positional-argument
count against the protocol's arity.  The keyword arguments are accepted
by the signature but never inspected. -/
def validate (protocol : Protocol) (args : List JValue) (kwargs : JDict) :
    Except String Unit := do
  let _ := kwargs
  if !(protocol.required.length ≤ args.length) then
    throw ("Protocol " ++ protocol.procedure ++ " has an arity of " ++
      toString protocol.required.length ++ ". Called with " ++
      toString args.length)
  if !(args.length ≤ protocol.required.length + protocol.optional.length) then
    throw ("Protocol " ++ protocol.procedure ++ " has an arity of " ++
      toString protocol.required.length ++ ". Called with " ++
      toString args.length)
  return ()

/-- `make_param` inside `_make_protocol_method`:
`{'key': key, 'value': value, 'required': required}` (the Python
default `required=True` is passed explicitly at each call site). -/
def make_param (key : String) (value : JValue) (required : Bool) :
    Param :=
  { key := key, value := value, required := required }

/-- The wire parameter list built by `_protocol_closure`: zip the
positional arguments onto the required keys in declared order, then
append one entry per optional key present in the keyword arguments. -/
def build_params (protocol : Protocol) (args : List JValue)
    (kwargs : JDict) : List Param :=
  ((protocol.required.zip args).map
      (fun kv => make_param kv.1.key kv.2 true)) ++
    (protocol.optional.filterMap
      (fun k => (pyLookup kwargs k.key).map
        (fun v => make_param k.key v false)))

/-- `_protocol_closure`: validate the arity, build the wire params,
create the request via the codec, register a fresh pending promise
under the message id, send the message, and return
`self._promises[msg['id']]`. -/
def protocol_closure (protocol : Protocol) (args : List JValue)
    (kwargs : JDict) (st : RemoteState) :
    Except String (Option PromiseState × RemoteState) := do
  match validate protocol args kwargs with
  | .error e => throw e
  | .ok _ =>
    let params := build_params protocol args kwargs
    let msg := json_rpc_request protocol.procedure params st.nextId
    let st := { st with nextId := st.nextId + 1 }
    let st := { st with
      promises := (msg.id, PromiseState.pending) :: st.promises,
      events := st.events ++ [RemoteEvent.register msg.id] }
    let st := { st with
      sent := st.sent ++ [msg],
      events := st.events ++ [RemoteEvent.send msg.id] }
    return (promiseLookup st.promises msg.id, st)

/-- `Remote.resolve`: look the message id up in `_promises`; if present,
reject the promise when the `error` field is non-null, otherwise fulfill
it with the `result` value; if absent, log a warning.  The table entry
is never removed.  A missing dict key raises (`Except.error`), modelling
a Python `KeyError`. -/
def resolve (st : RemoteState) (msg : WireMsg) :
    Except String RemoteState := do
  match msg.id with
  | none => throw "KeyError: id"
  | some mid =>
    if (promiseLookup st.promises mid).isSome then
      match msg.error with
      | none => throw "KeyError: error"
      | some err =>
        if err != JValue.null then
          return { st with
            promises := promiseSettle st.promises mid
              (PromiseState.rejected err) }
        else
          match msg.result with
          | none => throw "KeyError: result"
          | some r =>
            return { st with
              promises := promiseSettle st.promises mid
                (PromiseState.fulfilled r) }
    else
      return { st with
        log := st.log ++
          ["Could not find promise with id " ++ toString mid] }

end Remote

/-- Errors raised by a dispatched local procedure: either a
`jsonrpc.JSONRPCError` (re-raised as is by `_recv_msg`) or any other
exception, carrying `str(e)` (wrapped as `ServerError`). -/
inductive LocalErr where
  | rpc (e : RPCError)
  | other (s : String)
deriving DecidableEq

/-- Errors escaping `Geonotebook._recv_msg`: a `jsonrpc.JSONRPCError`,
or a raw Python exception (e.g. a `KeyError` on a missing dict field)
that propagates to `handle_comm_msg` uncaught. -/
inductive RecvErr where
  | rpc (e : RPCError)
  | exn (s : String)
deriving DecidableEq

/-- The state of one `Geonotebook` session controller: the viewport
attributes set in `__init__`, the serialized form of the external
`GeonotebookLayerCollection` (`layersData` holds the value
`self.layers.serialize()` would produce), the `_remote` proxy state,
and the result envelopes sent back via `_send_msg`. -/
structure GState where
  view_port : JValue
  x : JValue
  y : JValue
  z : JValue
  layersData : JValue
  remote : RemoteState
  sentResults : List ResultMsg
deriving DecidableEq

namespace Geonotebook

/-- `Geonotebook.msg_types`: the designated procedure names exposed to
the remote client. -/
def msg_types : List String :=
  ["get_protocol", "set_center", "add_annotation_from_client",
   "get_map_state"]

/-- `Geonotebook.serialize`: the `'center'` entry is included only when
`self.x and self.y and self.z` is truthy; the `'layers'` entry is always
included. -/
def serialize (st : GState) : JDict :=
  let ret : JDict := []
  let ret := if truthy st.x && truthy st.y && truthy st.z then
      ret ++ [("center", JValue.arr [st.x, st.y, st.z])]
    else ret
  ret ++ [("layers", st.layersData)]

/-- `Geonotebook.get_map_state`: returns `self.serialize()`. -/
def get_map_state (st : GState) : JDict :=
  serialize st

/-- The `_set_center` fulfillment continuation inside
`Geonotebook.set_center`: `self.x, self.y, self.z = result`, where the
reply destructures into three coordinates. -/
def set_center_fulfill (st : GState) (result : JValue × JValue × JValue) :
    GState :=
  { st with x := result.1, y := result.2.1, z := result.2.2 }

/-- `Geonotebook._reconcile_parameters`: build `param_hash` keyed by
parameter key, extract one positional value per required key (a missing
key raises `KeyError`, transformed into `InvalidParams`), and collect
each optional key present in `param_hash` as a keyword argument. -/
def reconcile_parameters (protocol : List (String × Protocol))
    (method : String) (params : List Param) :
    Except RPCError (List JValue × JDict) :=
  let param_hash : List (String × Param) := params.map (fun p => (p.key, p))
  match pyLookup protocol method with
  | none =>
      Except.error (RPCError.invalidParams
        ("missing required params for method: " ++ method))
  | some proto =>
    match proto.required.mapM (fun p => pyLookup param_hash p.key) with
    | none =>
        Except.error (RPCError.invalidParams
          ("missing required params for method: " ++ method))
    | some reqEntries =>
      let args := reqEntries.map Param.value
      let kwargs : JDict := proto.optional.filterMap
        (fun p => (pyLookup param_hash p.key).map (fun q => (p.key, q.value)))
      Except.ok (args, kwargs)

/-- `Geonotebook._recv_msg`: responses are tested first and forwarded to
`Remote.resolve`; then requests are dispatched — `MethodNotFound` for a
method not in `self._protocol`, parameter reconciliation, invocation of
the local procedure (modelled by the `invoke` argument standing for
`getattr(self, method)`), non-RPC exceptions wrapped as `ServerError`,
and the result sent back as `json_rpc_result(result, None, msg['id'])`;
anything else raises `ParseError`. -/
def recv_msg (protocol : List (String × Protocol))
    (invoke : String → List JValue → JDict → GState →
      Except LocalErr (JValue × GState))
    (st : GState) (msg : WireMsg) : Except RecvErr GState :=
  if is_response msg then
    match Remote.resolve st.remote msg with
    | .ok r => .ok { st with remote := r }
    | .error e => .error (.exn e)
  else if is_request msg then
    match msg.method, msg.params with
    | some method, some params =>
      if (protocol.map Prod.fst).contains method then
        match reconcile_parameters protocol method params with
        | .error e => .error (.rpc e)
        | .ok (args, kwargs) =>
          match invoke method args kwargs st with
          | .error (.rpc e) => .error (.rpc e)
          | .error (.other s) => .error (.rpc (.serverError s))
          | .ok (result, st') =>
            match msg.id with
            | none => .error (.rpc (.serverError "KeyError: id"))
            | some mid =>
              .ok { st' with
                sentResults := st'.sentResults ++
                  [json_rpc_result result JValue.null mid] }
      else
        .error (.rpc (.methodNotFound "Method not allowed"))
    | some _, none => .error (.exn "KeyError: params")
    | none, _ => .error (.exn "KeyError: method")
  else
    .error (.rpc (.parseError "Could not parse msg"))

/-- The `getargspec` data of one Python method: its argument names
(including the leading `self`) and the default values of its trailing
arguments, `none` when the method declares no defaults. -/
structure ArgSpec where
  args : List String
  defaults : Option (List JValue)
deriving DecidableEq

/-- `_method_protocol` inside `class_protocol`: drop `self`, split the
remaining parameters into required (no default, entry
`{'key': p, 'default': False}`) and optional (zipped with the declared
defaults), preserving declaration order. -/
def method_protocol (fn : String) (spec : ArgSpec) : Protocol :=
  let params := spec.args.drop 1
  let d := match spec.defaults with
    | some ds => ds.length
    | none => 0
  let r := params.length - d
  { procedure := fn
  , required := (params.take r).map
      (fun p => { key := p, dflt := JValue.bool false })
  , optional :=
      match spec.defaults with
      | some ds =>
          ((params.drop r).zip ds).map (fun pd => { key := pd.1, dflt := pd.2 })
      | none => [] }

/-- `Geonotebook.class_protocol`: on a cache miss, build the protocol
dict from the members of the class (`members` stands for the
`getmembers` listing, in its order) keeping exactly the names designated
in `msg_types`; on a hit, leave the cache untouched.  Either way return
`list(cls._protocol.values())`. -/
def class_protocol (cache : Option (List (String × Protocol)))
    (members : List (String × ArgSpec)) (types : List String) :
    Option (List (String × Protocol)) × List Protocol :=
  match cache with
  | some d => (some d, d.map Prod.snd)
  | none =>
    let d := (members.filter (fun m => types.contains m.1)).map
      (fun m => (m.1, method_protocol m.1 m.2))
    (some d, d.map Prod.snd)

/-- `Geonotebook.get_protocol`: returns
`self.__class__.class_protocol()`. -/
def get_protocol (cache : Option (List (String × Protocol)))
    (members : List (String × ArgSpec)) (types : List String) :
    Option (List (String × Protocol)) × List Protocol :=
  class_protocol cache members types

/-- `meta = meta or {}` in `Geonotebook.add_annotation`: a falsy `meta`
(`None` or an empty dict) is replaced by a fresh empty dict; a truthy
dict is kept.  The boolean records whether the resulting dict is the
caller's own object — Python `or` returns its left operand exactly when
that operand is truthy. -/
def metaOrEmpty (meta : Option JDict) : JDict × Bool :=
  match meta with
  | none => ([], false)
  | some d => if d.isEmpty then ([], false) else (d, true)

/-- Python `dict.__setitem__`: overwrite an existing binding in place,
else append the new key at the end. -/
def dictInsert (d : JDict) (k : String) (v : JValue) : JDict :=
  if d.any (fun kv => kv.1 == k) then
    d.map (fun kv => if kv.1 == k then (k, v) else kv)
  else d ++ [(k, v)]

/-- Python `dict.update`: insert every binding of `r` into `d`, in
order. -/
def dictUpdate (d r : JDict) : JDict :=
  r.foldl (fun acc kv => dictInsert acc kv.1 kv.2) d

/-- The observable shape of the remote `add_annotation` call issued by
`Geonotebook.add_annotation`: the arguments
`(ann_type, [coords], meta)` of `self._remote.add_annotation`, with
`meta` the dict bound after `meta = meta or {}`, and a flag recording
whether that dict is the caller-supplied object. -/
structure AnnCall where
  ann_type : String
  coords : JValue
  meta : JDict
  usesCallerDict : Bool
deriving DecidableEq

/-- `Geonotebook.add_annotation` up to and including the remote call:
replace a falsy `meta` with a fresh empty dict, then issue
`self._remote.add_annotation(ann_type, [coords], meta)` (the
coordinates wrapped as a single-element list). -/
def add_annotation_request (ann_type : String) (coords : JValue)
    (meta : Option JDict) : AnnCall :=
  let m := metaOrEmpty meta
  { ann_type := ann_type, coords := coords, meta := m.1,
    usesCallerDict := m.2 }

/-- The `_add_annotation` fulfillment continuation inside
`Geonotebook.add_annotation`: `meta.update(response)` followed by
`self.add_annotation_from_client(ann_type, coords, meta)`; the dict
handed to `add_annotation_from_client` is the updated `meta`. -/
def add_annotation_fulfill (call : AnnCall) (response : JDict) : JDict :=
  dictUpdate call.meta response

end Geonotebook

/-- The state of one `GeonotebookKernel` transport adapter: the
process-lifetime `initializing` flag set in `__init__`, the current
session controller, the protocol descriptors the `Remote` proxy was
bound to on the last comm open, the number of `set_protocol` pushes,
and the `(name, layer_type)` arguments of every bootstrap `add_layer`
call issued so far. -/
structure KernelState where
  initializing : Bool
  geonotebook : Option GState
  remoteProtocol : Option (List Protocol)
  protocolPushes : Nat
  addLayerCalls : List (String × String)
deriving DecidableEq

/-- `Remote.__init__`: the `_promises` table starts empty, nothing has
been sent, and the id counter starts at zero. -/
def initRemoteState : RemoteState :=
  { promises := [], nextId := 0, sent := [], events := [], log := [] }

/-- `Geonotebook.__init__`: viewport attributes start as `None` and the
layer collection starts empty. -/
def initGState : GState :=
  { view_port := JValue.null, x := JValue.null, y := JValue.null,
    z := JValue.null, layersData := JValue.arr [],
    remote := initRemoteState,
    sentResults := [] }

namespace GeonotebookKernel

/-- `GeonotebookKernel.handle_comm_open`: bind a fresh `Remote` proxy to
the protocol carried by the open message, push `set_protocol`, and —
only while `self.initializing` holds — bootstrap the two default layers
(`osm_base` with layer type `osm`, then `annotation` with layer type
`annotation`) and clear the flag. -/
def handle_comm_open (st : KernelState) (openProtocol : List Protocol) :
    KernelState :=
  let st := { st with remoteProtocol := some openProtocol,
                      protocolPushes := st.protocolPushes + 1 }
  if st.initializing then
    { st with
      addLayerCalls := st.addLayerCalls ++
        [("osm_base", "osm"), ("annotation", "annotation")],
      initializing := false }
  else st

/-- `GeonotebookKernel.do_shutdown`: discard the session controller;
on restart, construct a fresh `Geonotebook` bound to the same kernel.
The `initializing` flag is not touched. -/
def do_shutdown (st : KernelState) (restart : Bool) : KernelState :=
  let st := { st with geonotebook := none }
  if restart then { st with geonotebook := some initGState } else st

end GeonotebookKernel

/-! ## Theorems -/

/-- Whether an `Except` computation succeeded (i.e. raised nothing). -/
def exceptOk {ε α : Type} : Except ε α → Bool
  | .ok _ => true
  | .error _ => false

/-- The proxy-side protocol descriptor of the claim C1 scenario:
`{required:[{key:"x"}], optional:[{key:"y", default:0}]}` for procedure
`f`. -/
def c1proto : Protocol :=
  { procedure := "f"
  , required := [{ key := "x", dflt := JValue.null }]
  , optional := [{ key := "y", dflt := JValue.num 0 }] }

/-- The proxy-side protocol descriptor of the claim C2 scenario:
required `[a, b]`, optional `[c]`. -/
def c2proto : Protocol :=
  { procedure := "proc"
  , required := [{ key := "a", dflt := JValue.null },
                 { key := "b", dflt := JValue.null }]
  , optional := [{ key := "c", dflt := JValue.null }] }

/-- C1: invoking a proxy stub with positional arguments for every
required key produces a parameter list that zips each positional
argument to the required key in declared order with `required=true`
(entry `i` of the wire params), appends one `required=false` entry per
optional key present in the keyword arguments (every `required=false`
entry's value comes from the keyword arguments), and contains no entry
for an omitted optional key; concretely, for protocol
`{required:[{key:"x"}], optional:[{key:"y", default:0}]}`,
`invoke("f", [1], {y:2})` sends
`Request{method:"f", params:[{x,1,true},{y,2,false}]}`. -/
theorem C1_invoke_builds_params (protocol : Protocol) (args : List JValue)
    (kwargs : JDict) (hlen : args.length = protocol.required.length) :
    (∀ i, ∀ hi : i < protocol.required.length,
        (Remote.build_params protocol args kwargs)[i]? =
          some (Remote.make_param (protocol.required.get ⟨i, hi⟩).key
            (args.get ⟨i, by omega⟩) true))
    ∧ (∀ p ∈ Remote.build_params protocol args kwargs,
        p.required = false → pyLookup kwargs p.key = some p.value)
    ∧ (∀ o ∈ protocol.optional, ∀ v, pyLookup kwargs o.key = some v →
        Remote.make_param o.key v false ∈
          Remote.build_params protocol args kwargs)
    ∧ (∀ o ∈ protocol.optional, pyLookup kwargs o.key = none →
        ∀ p ∈ Remote.build_params protocol args kwargs,
          p.required = false → p.key ≠ o.key)
    ∧ Remote.protocol_closure c1proto [JValue.num 1] [("y", JValue.num 2)]
        initRemoteState
      = Except.ok (some PromiseState.pending,
          { promises := [(0, PromiseState.pending)], nextId := 1,
            sent := [{ id := 0, method := "f",
                       params := [{ key := "x", value := JValue.num 1,
                                    required := true },
                                  { key := "y", value := JValue.num 2,
                                    required := false }] }],
            events := [RemoteEvent.register 0, RemoteEvent.send 0],
            log := [] }) := by
  refine ⟨?_, ?_, ?_, ?_, rfl⟩
  · intro i hi
    have hA : ((protocol.required.zip args).map
        (fun kv => Remote.make_param kv.1.key kv.2 true)).length
        = protocol.required.length := by
      simp [List.length_zip, hlen]
    have hi' : i < args.length := by omega
    unfold Remote.build_params
    rw [List.getElem?_append_left (by rw [hA]; exact hi)]
    rw [List.getElem?_map]
    have hz : (protocol.required.zip args)[i]? =
        some (protocol.required.get ⟨i, hi⟩, args.get ⟨i, hi'⟩) := by
      rw [List.getElem?_zip_eq_some]
      exact ⟨by simp [List.getElem?_eq_getElem hi, List.get_eq_getElem],
             by simp [List.getElem?_eq_getElem hi', List.get_eq_getElem]⟩
    rw [hz]
    rfl
  · intro p hp hreq
    unfold Remote.build_params at hp
    rcases List.mem_append.mp hp with h | h
    · rcases List.mem_map.mp h with ⟨kv, _, rfl⟩
      simp [Remote.make_param] at hreq
    · rcases List.mem_filterMap.mp h with ⟨o, _, hsome⟩
      rcases Option.map_eq_some'.mp hsome with ⟨v, hv, rfl⟩
      simpa [Remote.make_param] using hv
  · intro o ho v hv
    unfold Remote.build_params
    refine List.mem_append.mpr (Or.inr ?_)
    exact List.mem_filterMap.mpr ⟨o, ho, by rw [hv]; rfl⟩
  · intro o _ hnone p hp hreq hkey
    unfold Remote.build_params at hp
    rcases List.mem_append.mp hp with h | h
    · rcases List.mem_map.mp h with ⟨kv, _, rfl⟩
      simp [Remote.make_param] at hreq
    · rcases List.mem_filterMap.mp h with ⟨o', _, hsome⟩
      rcases Option.map_eq_some'.mp hsome with ⟨v, hv, rfl⟩
      rw [Remote.make_param] at hkey
      simp only at hkey
      rw [hkey] at hv
      rw [hnone] at hv
      exact Option.noConfusion hv

/-- Witness for C1 at the scenario input: the protocol of C1 with one
positional argument and the optional keyword `y`. -/
theorem C1_witness :
    (Remote.build_params c1proto [JValue.num 1] [("y", JValue.num 2)])[0]? =
      some (Remote.make_param "x" (JValue.num 1) true)
    ∧ Remote.make_param "y" (JValue.num 2) false ∈
        Remote.build_params c1proto [JValue.num 1] [("y", JValue.num 2)] := by
  have h := C1_invoke_builds_params c1proto [JValue.num 1]
    [("y", JValue.num 2)] rfl
  exact ⟨h.1 0 (by decide), h.2.2.1 { key := "y", dflt := JValue.num 0 }
    (by decide) (JValue.num 2) rfl⟩

/-- `Remote.validate` succeeds exactly when the number of positional
arguments lies between the required count and the total parameter
count; the keyword arguments play no role. -/
theorem validate_ok_iff (protocol : Protocol) (args : List JValue)
    (kwargs : JDict) :
    exceptOk (Remote.validate protocol args kwargs) = true ↔
      protocol.required.length ≤ args.length ∧
        args.length ≤ protocol.required.length + protocol.optional.length := by
  by_cases h1 : protocol.required.length ≤ args.length
  · by_cases h2 :
        args.length ≤ protocol.required.length + protocol.optional.length
    · simp [Remote.validate, exceptOk, h1, h2, Bind.bind, Except.bind,
        pure, Except.pure]
    · simp [Remote.validate, exceptOk, h1, h2, Bind.bind, Except.bind,
        throw, throwThe, MonadExceptOf.throw, pure, Except.pure]
  · simp [Remote.validate, exceptOk, h1, Bind.bind, Except.bind,
      throw, throwThe, MonadExceptOf.throw, pure, Except.pure]

/-- A stub invocation succeeds exactly when its arity validation
does: `_protocol_closure` runs `validate` first and re-raises its
error. -/
theorem protocol_closure_ok_iff (protocol : Protocol) (args : List JValue)
    (kwargs : JDict) (st : RemoteState) :
    exceptOk (Remote.protocol_closure protocol args kwargs st) =
      exceptOk (Remote.validate protocol args kwargs) := by
  unfold Remote.protocol_closure
  cases h : Remote.validate protocol args kwargs with
  | error e => rfl
  | ok u => cases u; rfl

/-- C2 counterexample: with required `[a, b]` and optional `[c]`, a call
supplying one positional and one keyword argument supplies two arguments
in total, so by the claim it must succeed; yet the stub raises an arity
error, because `Remote.validate` never counts keyword arguments. -/
theorem C2_counterexample :
    exceptOk (Remote.protocol_closure c2proto [JValue.num 1]
      [("c", JValue.num 2)] initRemoteState) = false
    ∧ c2proto.required.length ≤ 1 + 1
    ∧ 1 + 1 ≤ c2proto.required.length + c2proto.optional.length :=
  ⟨rfl, by decide, by decide⟩

/-- C2 (amended): a proxy-stub invocation fails with an arity error
(sending nothing) if and only if the number of POSITIONAL arguments
alone is strictly less than R or strictly greater than R+O — keyword
arguments are not counted; with required `[a, b]`, optional `[c]`: one
positional argument fails, two and three succeed, four fail. -/
theorem C2_arity_positional_only (protocol : Protocol) (args : List JValue)
    (kwargs : JDict) (st : RemoteState) :
    (exceptOk (Remote.protocol_closure protocol args kwargs st) = false ↔
      args.length < protocol.required.length ∨
        protocol.required.length + protocol.optional.length < args.length)
    ∧ Remote.validate protocol args kwargs = Remote.validate protocol args []
    ∧ exceptOk (Remote.protocol_closure c2proto
        [JValue.num 1] [] st) = false
    ∧ exceptOk (Remote.protocol_closure c2proto
        [JValue.num 1, JValue.num 2] [] st) = true
    ∧ exceptOk (Remote.protocol_closure c2proto
        [JValue.num 1, JValue.num 2, JValue.num 3] [] st) = true
    ∧ exceptOk (Remote.protocol_closure c2proto
        [JValue.num 1, JValue.num 2, JValue.num 3, JValue.num 4] [] st)
        = false := by
  refine ⟨?_, rfl, rfl, rfl, rfl, rfl⟩
  rw [protocol_closure_ok_iff]
  have h := validate_ok_iff protocol args kwargs
  constructor
  · intro hfalse
    by_contra hc
    push_neg at hc
    have : exceptOk (Remote.validate protocol args kwargs) = true :=
      h.mpr ⟨by omega, by omega⟩
    rw [this] at hfalse
    exact Bool.noConfusion hfalse
  · intro hout
    cases hok : exceptOk (Remote.validate protocol args kwargs) with
    | false => rfl
    | true =>
      rcases h.mp hok with ⟨h1, h2⟩
      omega

/-- Settling a promise that is present in the table updates its entry
in place: the id still maps to the settled state afterwards. -/
theorem promiseLookup_promiseSettle (ps : List (Nat × PromiseState))
    (id : Nat) (s : PromiseState) :
    (promiseLookup ps id).isSome = true →
    promiseLookup (promiseSettle ps id s) id = some s := by
  induction ps with
  | nil => intro h; simp [promiseLookup] at h
  | cons kv rest ih =>
    intro h
    cases hk : (kv.1 == id) with
    | true =>
      simp [promiseLookup, promiseSettle, List.find?, hk]
    | false =>
      have hrest : (promiseLookup rest id).isSome = true := by
        simpa [promiseLookup, List.find?, hk] using h
      have hr := ih hrest
      simpa [promiseLookup, promiseSettle, List.find?, hk] using hr

/-- C3: `Remote.resolve` on an unknown id performs no fulfillment or
rejection (the promise table is untouched), raises nothing, and only
appends a warning to the log; on a known id it rejects the promise with
the error payload when `error` is non-null and otherwise fulfills it
with `result`; in both settled cases the table entry is updated in
place, never removed. -/
theorem C3_resolve (st : RemoteState) (msg : WireMsg) (mid : Nat)
    (hid : msg.id = some mid) :
    (promiseLookup st.promises mid = none →
      Remote.resolve st msg =
        Except.ok { st with log := st.log ++
          ["Could not find promise with id " ++ toString mid] })
    ∧ (∀ e, msg.error = some e → e ≠ JValue.null →
        (promiseLookup st.promises mid).isSome = true →
        Remote.resolve st msg = Except.ok { st with
          promises := promiseSettle st.promises mid
            (PromiseState.rejected e) }
        ∧ promiseLookup (promiseSettle st.promises mid
            (PromiseState.rejected e)) mid =
              some (PromiseState.rejected e))
    ∧ (∀ r, msg.error = some JValue.null → msg.result = some r →
        (promiseLookup st.promises mid).isSome = true →
        Remote.resolve st msg = Except.ok { st with
          promises := promiseSettle st.promises mid
            (PromiseState.fulfilled r) }
        ∧ promiseLookup (promiseSettle st.promises mid
            (PromiseState.fulfilled r)) mid =
              some (PromiseState.fulfilled r)) := by
  refine ⟨?_, ?_, ?_⟩
  · intro hnone
    simp [Remote.resolve, hid, hnone, pure, Except.pure]
  · intro e he hne hsome
    have hbne : (e != JValue.null) = true := bne_iff_ne.mpr hne
    refine ⟨?_, promiseLookup_promiseSettle st.promises mid _ hsome⟩
    simp [Remote.resolve, hid, hsome, he, hbne, pure, Except.pure]
  · intro r he hr hsome
    refine ⟨?_, promiseLookup_promiseSettle st.promises mid _ hsome⟩
    simp [Remote.resolve, hid, hsome, he, hr, pure, Except.pure]

/-- Witness for C3: resolving a successful reply (`error` null,
`result` 7) against a table holding the pending promise 5 fulfills that
promise and keeps its entry. -/
theorem C3_witness :
    Remote.resolve
        { promises := [(5, PromiseState.pending)], nextId := 6,
          sent := [], events := [], log := [] }
        { id := some 5, method := none, params := none,
          result := some (JValue.num 7), error := some JValue.null }
      = Except.ok
        { promises := [(5, PromiseState.fulfilled (JValue.num 7))],
          nextId := 6, sent := [], events := [], log := [] }
    ∧ promiseLookup [(5, PromiseState.fulfilled (JValue.num 7))] 5
      = some (PromiseState.fulfilled (JValue.num 7)) := by
  have h := (C3_resolve
    { promises := [(5, PromiseState.pending)], nextId := 6,
      sent := [], events := [], log := [] }
    { id := some 5, method := none, params := none,
      result := some (JValue.num 7), error := some JValue.null }
    5 rfl).2.2 (JValue.num 7) rfl rfl (by decide)
  exact ⟨h.1, h.2⟩

/-- C5: a stub invocation that passes arity validation returns a newly
registered pending promise; the promise is registered in `_promises`
under the fresh envelope id strictly before the envelope is handed to
the transport sink, as the effect trace `[register id, send id]`
records; the registered entry and the returned value are the same
pending promise. -/
theorem C5_register_before_send (protocol : Protocol) (args : List JValue)
    (kwargs : JDict) (st : RemoteState)
    (hok : Remote.validate protocol args kwargs = Except.ok ()) :
    ∀ p st', Remote.protocol_closure protocol args kwargs st =
        Except.ok (p, st') →
      p = some PromiseState.pending
      ∧ promiseLookup st'.promises st.nextId = some PromiseState.pending
      ∧ st'.events = st.events ++
          [RemoteEvent.register st.nextId, RemoteEvent.send st.nextId]
      ∧ st'.sent = st.sent ++ [json_rpc_request protocol.procedure
          (Remote.build_params protocol args kwargs) st.nextId] := by
  have hc : Remote.protocol_closure protocol args kwargs st =
      Except.ok (some PromiseState.pending,
        { promises := (st.nextId, PromiseState.pending) :: st.promises,
          nextId := st.nextId + 1,
          sent := st.sent ++ [json_rpc_request protocol.procedure
            (Remote.build_params protocol args kwargs) st.nextId],
          events := st.events ++ [RemoteEvent.register st.nextId,
            RemoteEvent.send st.nextId],
          log := st.log }) := by
    unfold Remote.protocol_closure
    rw [hok]
    simp [promiseLookup, List.find?, pure, Except.pure, json_rpc_request]
  intro p st' h
  rw [hc] at h
  simp only [Except.ok.injEq, Prod.mk.injEq] at h
  obtain ⟨hpv, hstv⟩ := h
  subst hpv
  subst hstv
  refine ⟨rfl, ?_, rfl, rfl⟩
  simp [promiseLookup, List.find?]

/-- Witness for C5 at the C1 scenario input, with the resulting state
written out. -/
theorem C5_witness :
    promiseLookup [(0, PromiseState.pending)] 0 =
      some PromiseState.pending
    ∧ ([RemoteEvent.register 0, RemoteEvent.send 0] :
        List RemoteEvent) = [] ++
          [RemoteEvent.register 0, RemoteEvent.send 0] := by
  have h := C5_register_before_send c1proto [JValue.num 1]
    [("y", JValue.num 2)] initRemoteState rfl (some PromiseState.pending)
    { promises := [(0, PromiseState.pending)], nextId := 1,
      sent := [json_rpc_request "f"
        (Remote.build_params c1proto [JValue.num 1]
          [("y", JValue.num 2)]) 0],
      events := [RemoteEvent.register 0, RemoteEvent.send 0],
      log := [] } rfl
  exact ⟨h.2.1, h.2.2.1⟩

/-- Unfolding of `_reconcile_parameters` with the local `param_hash`
substituted: required keys are looked up one by one (any miss yields
`InvalidParams`), optional keys present in the params become keyword
arguments. -/
theorem reconcile_parameters_eq (protocol : List (String × Protocol))
    (method : String) (params : List Param) :
    Geonotebook.reconcile_parameters protocol method params =
      (match pyLookup protocol method with
        | none => Except.error (RPCError.invalidParams
            ("missing required params for method: " ++ method))
        | some proto =>
          match proto.required.mapM
              (fun p => pyLookup (params.map (fun q => (q.key, q))) p.key)
            with
          | none => Except.error (RPCError.invalidParams
              ("missing required params for method: " ++ method))
          | some reqEntries =>
            Except.ok (reqEntries.map Param.value,
              proto.optional.filterMap (fun p =>
                (pyLookup (params.map (fun q => (q.key, q))) p.key).map
                  (fun q => (p.key, q.value))))) := rfl

/-- C4: `_recv_msg` on an inbound request fails `MethodNotFound`
(producing no successor state) when the method is not among the exposed
procedures; fails `InvalidParams` when some required parameter key is
absent from the request's params; and when every required key is
present, invokes the local procedure with the required values as
positional arguments plus each optional key present in params as a
keyword argument, then sends back the result envelope. -/
theorem C4_dispatch (protocol : List (String × Protocol))
    (invoke : String → List JValue → JDict → GState →
      Except LocalErr (JValue × GState))
    (st : GState) (msg : WireMsg) (method : String) (params : List Param)
    (hresp : is_response msg = false)
    (hm : msg.method = some method) (hp : msg.params = some params) :
    ((protocol.map Prod.fst).contains method = false →
      Geonotebook.recv_msg protocol invoke st msg =
        Except.error (RecvErr.rpc
          (RPCError.methodNotFound "Method not allowed")))
    ∧ (∀ proto, (protocol.map Prod.fst).contains method = true →
        pyLookup protocol method = some proto →
        proto.required.mapM
          (fun p => pyLookup (params.map (fun q => (q.key, q))) p.key)
          = none →
        Geonotebook.recv_msg protocol invoke st msg =
          Except.error (RecvErr.rpc (RPCError.invalidParams
            ("missing required params for method: " ++ method))))
    ∧ (∀ proto reqEntries,
        (protocol.map Prod.fst).contains method = true →
        pyLookup protocol method = some proto →
        proto.required.mapM
          (fun p => pyLookup (params.map (fun q => (q.key, q))) p.key)
          = some reqEntries →
        Geonotebook.recv_msg protocol invoke st msg =
          (match invoke method (reqEntries.map Param.value)
              (proto.optional.filterMap (fun p =>
                (pyLookup (params.map (fun q => (q.key, q))) p.key).map
                  (fun q => (p.key, q.value)))) st with
            | .error (.rpc e) => .error (.rpc e)
            | .error (.other s) => .error (.rpc (.serverError s))
            | .ok (result, st') =>
              match msg.id with
              | none => .error (.rpc (.serverError "KeyError: id"))
              | some mid => .ok { st' with
                  sentResults := st'.sentResults ++
                    [json_rpc_result result JValue.null mid] })) := by
  have hreq : is_request msg = true := by
    simp [is_request, hm]
  refine ⟨?_, ?_, ?_⟩
  · intro hc
    simp at hc
    simp [Geonotebook.recv_msg, hresp, hreq, hm, hp, hc]
  · intro proto hc hproto hnone
    have hrec : Geonotebook.reconcile_parameters protocol method params =
        Except.error (RPCError.invalidParams
          ("missing required params for method: " ++ method)) := by
      rw [reconcile_parameters_eq, hproto]
      dsimp only
      rw [hnone]
    simp at hc
    simp [Geonotebook.recv_msg, hresp, hreq, hm, hp, hc, hrec]
  · intro proto reqEntries hc hproto hsome
    have hrec : Geonotebook.reconcile_parameters protocol method params =
        Except.ok (reqEntries.map Param.value,
          proto.optional.filterMap (fun p =>
            (pyLookup (params.map (fun q => (q.key, q))) p.key).map
              (fun q => (p.key, q.value)))) := by
      rw [reconcile_parameters_eq, hproto]
      dsimp only
      rw [hsome]
    simp at hc
    simp [Geonotebook.recv_msg, hresp, hreq, hm, hp, hc, hrec]

/-- C8: a message that satisfies both the response shape and the
request shape (non-null method together with id and result/error) is
routed to `Remote.resolve`: `_recv_msg` tests `is_response` before
`is_request`, so it is never dispatched as a request (the outcome does
not depend on the exposed protocol or the local procedures at all). -/
theorem C8_response_priority (protocol : List (String × Protocol))
    (invoke : String → List JValue → JDict → GState →
      Except LocalErr (JValue × GState))
    (st : GState) (msg : WireMsg)
    (hresp : is_response msg = true) (hreq : is_request msg = true) :
    Geonotebook.recv_msg protocol invoke st msg =
      (match Remote.resolve st.remote msg with
        | .ok r => .ok { st with remote := r }
        | .error e => .error (.exn e)) := by
  have _ := hreq
  simp [Geonotebook.recv_msg, hresp]

/-- The protocol dict of a session controller exposing only
`set_center(self, x, y, z)`, used as a concrete dispatch input. -/
def c4protocol : List (String × Protocol) :=
  [("set_center",
    { procedure := "set_center"
    , required := [{ key := "x", dflt := JValue.bool false },
                   { key := "y", dflt := JValue.bool false },
                   { key := "z", dflt := JValue.bool false }]
    , optional := [] })]

/-- A concrete stand-in for `getattr(self, method)`: echo the positional
arguments back as the call's result. -/
def c4invoke : String → List JValue → JDict → GState →
    Except LocalErr (JValue × GState) :=
  fun _ args _ st => Except.ok (JValue.arr args, st)

/-- A well-formed inbound `set_center` request carrying all three
required parameters. -/
def c4msg : WireMsg :=
  { id := some 9, method := some "set_center",
    params := some
      [{ key := "x", value := JValue.num 1, required := true },
       { key := "y", value := JValue.num 2, required := true },
       { key := "z", value := JValue.num 3, required := true }],
    result := none, error := none }

/-- Witness for C4: dispatching the concrete `set_center` request
invokes the local procedure on the three required values and sends the
result envelope back. -/
theorem C4_witness :
    Geonotebook.recv_msg c4protocol c4invoke initGState c4msg =
      Except.ok { initGState with
        sentResults := [json_rpc_result
          (JValue.arr [JValue.num 1, JValue.num 2, JValue.num 3])
          JValue.null 9] } := by
  have h := (C4_dispatch c4protocol c4invoke initGState c4msg
      "set_center"
      [{ key := "x", value := JValue.num 1, required := true },
       { key := "y", value := JValue.num 2, required := true },
       { key := "z", value := JValue.num 3, required := true }]
      rfl rfl rfl).2.2
    (c4protocol.head (by decide)).2
    [{ key := "x", value := JValue.num 1, required := true },
     { key := "y", value := JValue.num 2, required := true },
     { key := "z", value := JValue.num 3, required := true }]
    rfl rfl rfl
  rw [h]
  rfl

/-- Witness for C8: a message carrying a non-null method together with
an id and a result is resolved as a response (here: unknown id 1, so
only a warning is logged) and never dispatched, even though the exposed
protocol is empty and dispatch would have failed. -/
theorem C8_witness :
    Geonotebook.recv_msg [] c4invoke initGState
        { id := some 1, method := some "get_map_state", params := some [],
          result := some (JValue.num 3), error := some JValue.null }
      = Except.ok { initGState with
          remote := { initRemoteState with
            log := ["Could not find promise with id 1"] } } := by
  rw [C8_response_priority [] c4invoke initGState
    { id := some 1, method := some "get_map_state", params := some [],
      result := some (JValue.num 3), error := some JValue.null }
    rfl rfl]
  rfl

/-- C6: the protocol description is computed at most once: with the
cache populated a call returns the cache unchanged, so a second
`get_protocol()` call returns the same value as the first; each
designated procedure present on the type is listed exactly once and
designated names absent from the type are silently skipped; and every
descriptor lists all required parameter entries before all optional
entries, jointly spelling the method's parameters in declaration
order. -/
theorem C6_protocol_cached (members : List (String × Geonotebook.ArgSpec))
    (types : List String)
    (hnodup : (members.map Prod.fst).Nodup) :
    (Geonotebook.get_protocol
        (Geonotebook.get_protocol none members types).1 members types =
      Geonotebook.get_protocol none members types)
    ∧ (∀ d, Geonotebook.get_protocol (some d) members types =
        (some d, d.map Prod.snd))
    ∧ (∀ fn, fn ∈ types → fn ∈ members.map Prod.fst →
        ((Geonotebook.get_protocol none members types).2.map
          Protocol.procedure).count fn = 1)
    ∧ (∀ fn, fn ∉ members.map Prod.fst →
        ((Geonotebook.get_protocol none members types).2.map
          Protocol.procedure).count fn = 0)
    ∧ (∀ fn spec,
        ((Geonotebook.method_protocol fn spec).required.map PParam.key) ++
          ((Geonotebook.method_protocol fn spec).optional.map PParam.key)
          = spec.args.drop 1
        ∧ (Geonotebook.method_protocol fn spec).procedure = fn) := by
  have haux : ∀ (ms : List (String × Geonotebook.ArgSpec)),
      (ms.filter (fun m => types.contains m.1)).map
        (fun m : String × Geonotebook.ArgSpec => m.1)
      = (ms.map Prod.fst).filter (fun n => types.contains n) := by
    intro ms
    induction ms with
    | nil => rfl
    | cons m rest ih =>
      by_cases hc : m.1 ∈ types
      · simp only [List.map_cons, List.filter_cons]
        simp [hc]
        simpa using ih
      · simp only [List.map_cons, List.filter_cons]
        simp [hc]
        simpa using ih
  have hmap : ((Geonotebook.get_protocol none members types).2.map
      Protocol.procedure)
      = (members.map Prod.fst).filter (fun n => types.contains n) := by
    show ((((members.filter (fun m => types.contains m.1)).map
        (fun m => (m.1, Geonotebook.method_protocol m.1 m.2))).map
          Prod.snd).map Protocol.procedure)
      = (members.map Prod.fst).filter (fun n => types.contains n)
    rw [List.map_map, List.map_map]
    exact haux members
  refine ⟨rfl, fun d => rfl, ?_, ?_, ?_⟩
  · intro fn hty hmem
    rw [hmap]
    rw [List.count_filter (by simpa using hty)]
    exact List.count_eq_one_of_mem hnodup hmem
  · intro fn hmem
    rw [hmap]
    refine List.count_eq_zero.mpr (fun hc => hmem ?_)
    exact (List.mem_filter.mp hc).1
  · intro fn spec
    refine ⟨?_, rfl⟩
    have hkeys : ∀ l : List String,
        (l.map (fun p =>
          ({ key := p, dflt := JValue.bool false } : PParam))).map PParam.key
        = l := by
      intro l
      rw [List.map_map]
      exact List.map_id' l
    unfold Geonotebook.method_protocol
    cases hd : spec.defaults with
    | none =>
      dsimp only
      rw [hkeys, Nat.sub_zero, List.take_length]
      simp
    | some ds =>
      dsimp only
      rw [hkeys]
      have h1 : ((spec.args.drop 1).drop
            ((spec.args.drop 1).length - ds.length)).length ≤ ds.length := by
        simp only [List.length_drop]
        omega
      have hopt : ((((spec.args.drop 1).drop
            ((spec.args.drop 1).length - ds.length)).zip ds).map
              (fun pd => ({ key := pd.1, dflt := pd.2 } : PParam))).map
                PParam.key
          = (spec.args.drop 1).drop
              ((spec.args.drop 1).length - ds.length) := by
        rw [List.map_map]
        exact List.map_fst_zip _ _ h1
      rw [hopt]
      exact List.take_append_drop _ _

/-- The `getargspec` data of the relevant function members of the
`Geonotebook` class, in the alphabetical order `getmembers` produces:
argument names (with the leading `self`) and declared defaults, taken
from `kernel.py`. -/
def geonotebookMembers : List (String × Geonotebook.ArgSpec) :=
  [("add_annotation",
    { args := ["self", "ann_type", "coords", "meta"],
      defaults := some [JValue.null] }),
   ("add_annotation_from_client",
    { args := ["self", "ann_type", "coords", "meta"], defaults := none }),
   ("add_layer",
    { args := ["self", "data", "name", "vis_url"],
      defaults := some [JValue.null, JValue.null] }),
   ("get_map_state", { args := ["self"], defaults := none }),
   ("get_protocol", { args := ["self"], defaults := none }),
   ("remove_layer", { args := ["self", "layer_name"], defaults := none }),
   ("serialize", { args := ["self"], defaults := none }),
   ("set_center",
    { args := ["self", "x", "y", "z"], defaults := none })]

/-- Witness for C6 on the actual `Geonotebook` members and designated
procedure set: the cached second call is stable and `set_center`
appears exactly once. -/
theorem C6_witness :
    Geonotebook.get_protocol
        (Geonotebook.get_protocol none geonotebookMembers
          Geonotebook.msg_types).1 geonotebookMembers
        Geonotebook.msg_types =
      Geonotebook.get_protocol none geonotebookMembers
        Geonotebook.msg_types
    ∧ ((Geonotebook.get_protocol none geonotebookMembers
        Geonotebook.msg_types).2.map Protocol.procedure).count
        "set_center" = 1 := by
  have h := C6_protocol_cached geonotebookMembers Geonotebook.msg_types
    (by decide)
  exact ⟨h.1, h.2.2.1 "set_center" (by decide) (by decide)⟩

/-- The kernel state right after `GeonotebookKernel.__init__` and
`start`: the first-open flag is set and nothing is bootstrapped. -/
def c7k0 : KernelState :=
  { initializing := true, geonotebook := some initGState,
    remoteProtocol := none, protocolPushes := 0, addLayerCalls := [] }

/-- C7 counterexample: run open, shutdown with restart, open again from
a fresh kernel.  The restart shutdown leaves `initializing` false —
contradicting the claim that it clears the bootstrap flag — and the
subsequent open therefore does not re-bootstrap: the two default
layers are only ever requested once. -/
theorem C7_counterexample :
    ¬ ((GeonotebookKernel.do_shutdown
          (GeonotebookKernel.handle_comm_open c7k0 []) true).initializing
        = true)
    ∧ KernelState.addLayerCalls
        (GeonotebookKernel.handle_comm_open
          (GeonotebookKernel.do_shutdown
            (GeonotebookKernel.handle_comm_open c7k0 []) true) [])
      = [("osm_base", "osm"), ("annotation", "annotation")] := by
  exact ⟨by decide, by decide⟩

/-- C7 (amended): the two default layers are bootstrapped on channel
open only while the first-open flag is set, and the flag is cleared
immediately afterwards, so reopening the channel never duplicates them;
`do_shutdown(restart)` discards the session controller and on restart
constructs a fresh one bound to the same kernel, but does NOT touch the
bootstrap flag, so a subsequent open does not re-bootstrap. -/
theorem C7_bootstrap_once (st : KernelState) (p q : List Protocol)
    (restart : Bool) :
    (st.initializing = true →
      (GeonotebookKernel.handle_comm_open st p).addLayerCalls =
        st.addLayerCalls ++
          [("osm_base", "osm"), ("annotation", "annotation")])
    ∧ (st.initializing = false →
      (GeonotebookKernel.handle_comm_open st p).addLayerCalls =
        st.addLayerCalls)
    ∧ (GeonotebookKernel.handle_comm_open st p).initializing = false
    ∧ (GeonotebookKernel.handle_comm_open
        (GeonotebookKernel.handle_comm_open st p) q).addLayerCalls =
      (GeonotebookKernel.handle_comm_open st p).addLayerCalls
    ∧ (GeonotebookKernel.do_shutdown st restart).initializing =
        st.initializing
    ∧ (GeonotebookKernel.do_shutdown st true).geonotebook =
        some initGState
    ∧ (GeonotebookKernel.do_shutdown st false).geonotebook = none := by
  refine ⟨?_, ?_, ?_, ?_, ?_, rfl, rfl⟩
  · intro h
    simp [GeonotebookKernel.handle_comm_open, h]
  · intro h
    simp [GeonotebookKernel.handle_comm_open, h]
  · unfold GeonotebookKernel.handle_comm_open
    cases h : st.initializing with
    | true => simp [h]
    | false => simp [h]
  · have h2 : (GeonotebookKernel.handle_comm_open st p).initializing
        = false := by
      unfold GeonotebookKernel.handle_comm_open
      cases h : st.initializing with
      | true => simp [h]
      | false => simp [h]
    generalize hY : GeonotebookKernel.handle_comm_open st p = Y at h2 ⊢
    unfold GeonotebookKernel.handle_comm_open
    simp [h2]
  · unfold GeonotebookKernel.do_shutdown
    cases restart with
    | true => rfl
    | false => rfl

/-- Witness for C7 (amended) at the fresh kernel state: the first open
bootstraps the two default layers and clears the flag. -/
theorem C7_witness :
    (GeonotebookKernel.handle_comm_open c7k0 []).addLayerCalls =
      c7k0.addLayerCalls ++
        [("osm_base", "osm"), ("annotation", "annotation")]
    ∧ (GeonotebookKernel.handle_comm_open c7k0 []).initializing
      = false := by
  have h := C7_bootstrap_once c7k0 [] [] true
  exact ⟨h.1 rfl, h.2.2.1⟩

/-- C9: the serialized map state contains the `center` entry exactly
when all three viewport coordinates are truthy — so a legitimate zero
coordinate, e.g. after a `set_center` round trip fulfilled with
`(0, 40, 4)`, suppresses `center` exactly as if the viewport had never
been set — while the `layers` entry is always present, and
`get_map_state` returns exactly the serialized state. -/
theorem C9_center_requires_truthy (st : GState) :
    (pyLookup (Geonotebook.serialize st) "center" =
      (if truthy st.x && truthy st.y && truthy st.z then
        some (JValue.arr [st.x, st.y, st.z]) else none))
    ∧ pyLookup (Geonotebook.serialize st) "layers" = some st.layersData
    ∧ Geonotebook.get_map_state st = Geonotebook.serialize st
    ∧ Geonotebook.serialize (Geonotebook.set_center_fulfill st
        (JValue.num 0, JValue.num 40, JValue.num 4)) =
      Geonotebook.serialize
        { st with
          x := JValue.null,
          y := JValue.null,
          z := JValue.null } := by
  refine ⟨?_, ?_, rfl, rfl⟩
  · unfold Geonotebook.serialize
    cases h : (truthy st.x && truthy st.y && truthy st.z) with
    | true => simp [h, pyLookup, List.find?]
    | false => simp [h, pyLookup, List.find?]
  · unfold Geonotebook.serialize
    cases h : (truthy st.x && truthy st.y && truthy st.z) with
    | true => simp [h, pyLookup, List.find?]
    | false => simp [h, pyLookup, List.find?]

/-- C10 counterexample: a caller-supplied EMPTY dict is falsy, so
`meta = meta or {}` replaces it with a fresh dict — the remote call
does not use (and the fulfillment does not mutate) the caller's own
dictionary object, contrary to the claim. -/
theorem C10_counterexample :
    ¬ ((Geonotebook.add_annotation_request "point"
        (JValue.arr [JValue.num 1, JValue.num 2])
        (some [])).usesCallerDict = true) := by
  decide

/-- C10 (amended): `add_annotation` called with `meta` omitted or
`None` binds a fresh empty dict, so the fulfillment continuation's
merge never dereferences `None`; a caller-supplied TRUTHY (non-empty)
dict is itself used and is the dict that the fulfillment merges the
server response into before it is passed to
`add_annotation_from_client`; a caller-supplied empty dict is, like
`None`, replaced by a fresh one. -/
theorem C10_meta_defaults (ann_type : String) (coords : JValue)
    (d : JDict) (response : JDict) :
    ((Geonotebook.add_annotation_request ann_type coords none).meta = [])
    ∧ ((Geonotebook.add_annotation_request ann_type coords
        none).usesCallerDict = false)
    ∧ ((Geonotebook.add_annotation_request ann_type coords
        (some [])).usesCallerDict = false)
    ∧ (d ≠ [] →
        (Geonotebook.add_annotation_request ann_type coords
          (some d)).meta = d
        ∧ (Geonotebook.add_annotation_request ann_type coords
            (some d)).usesCallerDict = true
        ∧ Geonotebook.add_annotation_fulfill
            (Geonotebook.add_annotation_request ann_type coords (some d))
            response
          = Geonotebook.dictUpdate d response)
    ∧ Geonotebook.add_annotation_fulfill
        (Geonotebook.add_annotation_request ann_type coords none) response
      = Geonotebook.dictUpdate [] response := by
  refine ⟨rfl, rfl, rfl, ?_, rfl⟩
  intro hd
  have hne : d.isEmpty = false := by
    cases d with
    | nil => exact absurd rfl hd
    | cons a l => rfl
  unfold Geonotebook.add_annotation_fulfill
    Geonotebook.add_annotation_request Geonotebook.metaOrEmpty
  simp [hne]

/-- Witness for C10 (amended): a non-empty caller dict is used as the
meta dict itself. -/
theorem C10_witness :
    (Geonotebook.add_annotation_request "point" (JValue.arr [])
        (some [("a", JValue.num 1)])).meta = [("a", JValue.num 1)]
    ∧ (Geonotebook.add_annotation_request "point" (JValue.arr [])
        (some [("a", JValue.num 1)])).usesCallerDict = true := by
  have h := (C10_meta_defaults "point" (JValue.arr [])
    [("a", JValue.num 1)] [("b", JValue.num 2)]).2.2.2.1 (by decide)
  exact ⟨h.1, h.2.1⟩

end Geonb
